import Mathlib

/-!
Shallow embedding of the data-fetch and normalization pipeline of the
Free Fire stats bot (src/bot.js), together with proofs of the claimed
properties.

Modelling conventions:
* JavaScript numbers that hold integer statistics are modelled as `Int`
  (upstream JSON may carry negative values, so `Nat` would be wrong).
* JavaScript number arithmetic inside `combinePlayerData` is modelled
  exactly: `x.toFixed(d)` applied to the quotient `num / den` (with
  `den > 0` on every reachable path) is computed with exact integer
  arithmetic via `floor(|num/den| * 10^d + 1/2)`, which is the rounding
  prescribed for `Number.prototype.toFixed` (round the absolute value,
  ties away from zero, sign prepended).  IEEE-754 double rounding and the
  exponential-notation cutoff for huge values are outside the model.
* JavaScript truthiness of the defaulting idiom `x || d` is modelled
  field-by-field: for numbers `0` is falsy, for strings `""` is falsy,
  absent fields (`undefined`) are `Option.none`, objects are truthy.
* The HTTP client (axios) is external library code; its interface is
  modelled as an oracle outcome per request: either a parsed body or a
  raised transport failure (timeout, connection error, non-2xx status,
  malformed body), which is what the orchestrator's `try`/`catch`
  observes.
-/

/-! ## Decimal rendering of numbers (models `toString` / `toFixed`) -/

/-- The decimal digit character for `n % 10`. -/
def digitChar (n : Nat) : Char :=
  if n = 0 then '0' else if n = 1 then '1' else if n = 2 then '2'
  else if n = 3 then '3' else if n = 4 then '4' else if n = 5 then '5'
  else if n = 6 then '6' else if n = 7 then '7' else if n = 8 then '8' else '9'

/-- Decimal digits of `n`, most significant first; `fuel` bounds the recursion
and is always supplied as `n + 1`, which is sufficient since `n / 10 < n` for
`n ≥ 10`. -/
def natDigitsAux : Nat → Nat → List Char
  | 0, _ => []
  | fuel + 1, n =>
    if n < 10 then [digitChar n]
    else natDigitsAux fuel (n / 10) ++ [digitChar (n % 10)]

/-- Decimal digit list of a natural number (e.g. `430` becomes `['4','3','0']`). -/
def natDigits (n : Nat) : List Char := natDigitsAux (n + 1) n

/-- Exactly `d` decimal digits of the fraction numerator `m < 10 ^ d`,
most significant first, zero-padded on the left. -/
def fracDigits : Nat → Nat → List Char
  | 0, _ => []
  | d + 1, m => digitChar (m / 10 ^ d) :: fracDigits d (m % 10 ^ d)

/-- Models JavaScript `Number.prototype.toString` on an integer-valued number. -/
def intToStr (n : Int) : String :=
  if n < 0 then String.mk ('-' :: natDigits n.natAbs) else String.mk (natDigits n.natAbs)

/-- The sign prefix of `(num / den).toFixed(d)`: a minus when the value is
negative. -/
def jsToFixedSign (num den : Int) : List Char :=
  if num * den < 0 then ['-'] else []

/-- `floor(|num / den| * 10^d + 1/2)`, the scaled rounded magnitude used by
`toFixed` (ties away from zero); for naturals `a / b` this is
`(2 * a * 10^d + b) / (2 * b)`. -/
def jsToFixedScaled (d : Nat) (num den : Int) : Nat :=
  (2 * num.natAbs * 10 ^ d + den.natAbs) / (2 * den.natAbs)

/-- Models `(num / den).toFixed(d)` for the exact rational `num / den`
(callers guarantee `den > 0`): the sign of the value, then the rounded
magnitude rendered with `d` digits after the dot. -/
def jsToFixed (d : Nat) (num den : Int) : String :=
  if d = 0 then
    String.mk (jsToFixedSign num den ++ natDigits (jsToFixedScaled d num den))
  else
    String.mk (jsToFixedSign num den ++ natDigits (jsToFixedScaled d num den / 10 ^ d) ++
      '.' :: fracDigits d (jsToFixedScaled d num den % 10 ^ d))

/-- The maximal run of characters at the end of `s` not containing a dot
(the fractional part when `s` is a fixed-point decimal string). -/
def fracPart (s : String) : List Char :=
  s.data.reverse.takeWhile (fun c => c != '.')

/-- `s` is a fixed-point decimal string with exactly `d` digits after its
single decimal dot. -/
def isFixedString (s : String) (d : Nat) : Prop :=
  s.data.count '.' = 1 ∧ (fracPart s).length = d ∧ ∀ c ∈ fracPart s, c.isDigit = true

/-! ## Raw upstream payloads (untrusted, partially populated JSON shapes) -/

/-- `detailedStats` sub-object of a per-mode stats block. -/
structure DetailedStats where
  deaths : Option Int
  headshots : Option Int
  damage : Option Int
deriving DecidableEq

/-- Per-mode (`soloStats` / `quadStats`) block of the player-stats payload. -/
structure ModeStats where
  gamesPlayed : Option Int
  wins : Option Int
  kills : Option Int
  detailedStats : Option DetailedStats
deriving DecidableEq

/-- Body of the `playerstats` endpoint response. -/
structure StatsData where
  soloStats : Option ModeStats
  quadStats : Option ModeStats
deriving DecidableEq

/-- `basicInfo` sub-object of the `account` endpoint response.
`lastLoginAt` is the epoch-seconds value, modelled as its integer value. -/
structure BasicInfo where
  nickname : Option String
  accountId : Option String
  level : Option Int
  region : Option String
  liked : Option Int
  rank : Option Int
  rankingPoints : Option Int
  maxRank : Option Int
  badgeCnt : Option Int
  lastLoginAt : Option Int
deriving DecidableEq

/-- `clanBasicInfo` sub-object, passed through unmodified. -/
structure ClanInfo where
  clanName : String
  clanLevel : Int
  memberNum : Int
deriving DecidableEq

/-- Body of the `account` endpoint response.  `error` models the truthiness
of the `error` field, `message` the `message` field used for the raised
failure. -/
structure AccountBody where
  error : Bool
  message : String
  basicInfo : Option BasicInfo
  clanBasicInfo : Option ClanInfo
deriving DecidableEq

/-- Body of the `guildInfo` endpoint response (returned unnormalized). -/
structure GuildBody where
  error : Bool
  message : String
  clanName : String
  clanId : String
  clanLevel : Int
  memberNum : Int
deriving DecidableEq

/-! ## JavaScript defaulting idioms -/

/-- `v || d` for a possibly-absent number field: `0` is falsy. -/
def jsOrInt (v : Option Int) (d : Int) : Int :=
  match v with
  | some n => if n = 0 then d else n
  | none => d

/-- `v || d` for a possibly-absent string field: `""` is falsy. -/
def jsOrString (v : Option String) (d : String) : String :=
  match v with
  | some s => if s = "" then d else s
  | none => d

/-! ## Record normalizer (`combinePlayerData`) -/

/-- `accountData.basicInfo || {}` — every field defaults to absent. -/
def emptyBasicInfo : BasicInfo :=
  { nickname := none, accountId := none, level := none, region := none,
    liked := none, rank := none, rankingPoints := none, maxRank := none,
    badgeCnt := none, lastLoginAt := none }

/-- `{}` default for a per-mode stats block. -/
def emptyModeStats : ModeStats :=
  { gamesPlayed := none, wins := none, kills := none, detailedStats := none }

/-- The defaulted `basicInfo` object used throughout `combinePlayerData`. -/
def accBasicInfo (a : AccountBody) : BasicInfo := a.basicInfo.getD emptyBasicInfo

/-- `statsData?.soloStats || {}`. -/
def soloOf (s : Option StatsData) : ModeStats :=
  match s with
  | some sd => sd.soloStats.getD emptyModeStats
  | none => emptyModeStats

/-- `statsData?.quadStats || {}`. -/
def quadOf (s : Option StatsData) : ModeStats :=
  match s with
  | some sd => sd.quadStats.getD emptyModeStats
  | none => emptyModeStats

/-- `m.detailedStats?.deaths || 0`. -/
def deathsOf (m : ModeStats) : Int :=
  match m.detailedStats with
  | some ds => jsOrInt ds.deaths 0
  | none => 0

/-- `m.detailedStats?.headshots || 0`. -/
def headshotsOf (m : ModeStats) : Int :=
  match m.detailedStats with
  | some ds => jsOrInt ds.headshots 0
  | none => 0

/-- `m.detailedStats?.damage || 0`. -/
def damageOf (m : ModeStats) : Int :=
  match m.detailedStats with
  | some ds => jsOrInt ds.damage 0
  | none => 0

/-- `(soloStats.gamesPlayed || 0) + (quadStats.gamesPlayed || 0)`. -/
def totalMatchesOf (s : Option StatsData) : Int :=
  jsOrInt (soloOf s).gamesPlayed 0 + jsOrInt (quadOf s).gamesPlayed 0

/-- `(soloStats.wins || 0) + (quadStats.wins || 0)`. -/
def totalWinsOf (s : Option StatsData) : Int :=
  jsOrInt (soloOf s).wins 0 + jsOrInt (quadOf s).wins 0

/-- `(soloStats.kills || 0) + (quadStats.kills || 0)`. -/
def totalKillsOf (s : Option StatsData) : Int :=
  jsOrInt (soloOf s).kills 0 + jsOrInt (quadOf s).kills 0

/-- `(soloStats.detailedStats?.deaths || 0) + (quadStats.detailedStats?.deaths || 0)`. -/
def totalDeathsOf (s : Option StatsData) : Int :=
  deathsOf (soloOf s) + deathsOf (quadOf s)

/-- The `rankNames` table: the ten codes 211 to 220 map to named tiers. -/
def rankNames (c : Int) : Option String :=
  if c = 220 then some "Grandmaster"
  else if c = 219 then some "Diamond I"
  else if c = 218 then some "Diamond II"
  else if c = 217 then some "Diamond III"
  else if c = 216 then some "Platinum I"
  else if c = 215 then some "Platinum II"
  else if c = 214 then some "Platinum III"
  else if c = 213 then some "Gold I"
  else if c = 212 then some "Gold II"
  else if c = 211 then some "Gold III"
  else none

/-- `rankNames[r]` where `r` may be absent (absent index finds nothing). -/
def jsRankLookup (r : Option Int) : Option String :=
  match r with
  | some c => rankNames c
  | none => none

/-- The interpolation `${r || 'Unknown'}` for the rank code: the code is
rendered in decimal unless it is absent or `0` (falsy). -/
def rankFallbackText (r : Option Int) : String :=
  match r with
  | some c => if c = 0 then "Unknown" else intToStr c
  | none => "Unknown"

/-- Models `new Date(t * 1000).toLocaleString()` as an abstract rendering of
the epoch value; no claim depends on the concrete text, only on its presence. -/
def localeString (t : Int) : String := "Date(" ++ intToStr t ++ ")"

/-- The merged, derived-field-complete player record. -/
structure NormalizedRecord where
  nickname : String
  uid : String
  level : Int
  region : String
  likes : Int
  rank : String
  rankingPoints : Int
  kdRatio : String
  totalMatches : Int
  totalWins : Int
  winRate : String
  totalKills : Int
  headshots : Int
  damage : Int
  maxRank : String
  badgeCount : Int
  clanInfo : Option ClanInfo
  lastLogin : String
  soloStats : ModeStats
  quadStats : ModeStats
deriving DecidableEq

/-- Embedding of `combinePlayerData(accountData, statsData, uid, region)`
(src/bot.js lines 509 to 559).  Since the names in the rank table are
non-empty strings (truthy), `rankNames[c] || fallback` is `Option.getD`. -/
def combinePlayerData (accountData : AccountBody) (statsData : Option StatsData)
    (uid region : String) : NormalizedRecord :=
  { nickname := jsOrString (accBasicInfo accountData).nickname "Unknown"
    uid := jsOrString (accBasicInfo accountData).accountId uid
    level := jsOrInt (accBasicInfo accountData).level 0
    region := jsOrString (accBasicInfo accountData).region region
    likes := jsOrInt (accBasicInfo accountData).liked 0
    rank := (jsRankLookup (accBasicInfo accountData).rank).getD
      ("Rank " ++ rankFallbackText (accBasicInfo accountData).rank)
    rankingPoints := jsOrInt (accBasicInfo accountData).rankingPoints 0
    kdRatio :=
      if totalDeathsOf statsData > 0 then
        jsToFixed 2 (totalKillsOf statsData) (totalDeathsOf statsData)
      else intToStr (totalKillsOf statsData)
    totalMatches := totalMatchesOf statsData
    totalWins := totalWinsOf statsData
    winRate :=
      if totalMatchesOf statsData > 0 then
        jsToFixed 1 (totalWinsOf statsData * 100) (totalMatchesOf statsData)
      else "0.0"
    totalKills := totalKillsOf statsData
    headshots := headshotsOf (soloOf statsData) + headshotsOf (quadOf statsData)
    damage := damageOf (soloOf statsData) + damageOf (quadOf statsData)
    maxRank := (jsRankLookup (accBasicInfo accountData).maxRank).getD "Unknown"
    badgeCount := jsOrInt (accBasicInfo accountData).badgeCnt 0
    clanInfo := accountData.clanBasicInfo
    lastLogin :=
      match (accBasicInfo accountData).lastLoginAt with
      | some t => localeString t
      | none => "Unknown"
    soloStats := soloOf statsData
    quadStats := quadOf statsData }

/-! ## Cache store (`searchCache`, TTL policy, sweep) -/

/-- `CACHE_DURATION = 5 * 60 * 1000` milliseconds (the TTL). -/
def CACHE_DURATION : Int := 5 * 60 * 1000

/-- A value stored in the shared cache: a normalized player record
(written by `fetchPlayerStats`) or a raw guild body (written by
`fetchGuildInfo`). -/
inductive CachedValue where
  | player (r : NormalizedRecord)
  | guild (g : GuildBody)
deriving DecidableEq

/-- One cache entry: `{ data, timestamp }`. -/
structure CacheEntry where
  data : CachedValue
  timestamp : Int
deriving DecidableEq

/-- The `searchCache` map, as an association list keyed by string. -/
abbrev Cache := List (String × CacheEntry)

/-- `Map.prototype.get`: the entry stored under `k`, if any. -/
def mapGet (m : Cache) (k : String) : Option CacheEntry :=
  match m with
  | [] => none
  | (k2, v) :: rest => if k2 = k then some v else mapGet rest k

/-- `Map.prototype.set`: overwrite the entry under `k` in place, or append. -/
def mapSet (m : Cache) (k : String) (v : CacheEntry) : Cache :=
  match m with
  | [] => [(k, v)]
  | (k2, v2) :: rest => if k2 = k then (k, v) :: rest else (k2, v2) :: mapSet rest k v

/-- The freshness check performed on read
(`cached && Date.now() - cached.timestamp < CACHE_DURATION`): a fresh hit
returns the stored value; a stale or missing entry is a miss (the entry is
not deleted). -/
def cacheGetFresh (now : Int) (cache : Cache) (key : String) : Option CachedValue :=
  match mapGet cache key with
  | some e => if now - e.timestamp < CACHE_DURATION then some e.data else none
  | none => none

/-- The periodic sweep (src/bot.js lines 661 to 669): delete every entry with
`now - value.timestamp > CACHE_DURATION * 2`, keep the rest. -/
def sweep (now : Int) (cache : Cache) : Cache :=
  cache.filter (fun kv => !(decide (now - kv.2.timestamp > CACHE_DURATION * 2)))

/-! ## Fetch orchestrator -/

/-- The cache key `stats-{uid}-{region}`. -/
def statsCacheKey (uid region : String) : String := "stats-" ++ uid ++ "-" ++ region

/-- The cache key `guild-{guildId}-{region}`. -/
def guildCacheKey (guildId region : String) : String := "guild-" ++ guildId ++ "-" ++ region

/-- Transport-level failures the HTTP client raises (all observed
identically by the `catch` block). -/
inductive TransportError where
  | timeout
  | connectionError
  | non2xx
  | malformedBody
deriving DecidableEq

/-- Outcome of one upstream GET request: a parsed body, or a raised
transport failure. -/
inductive HttpOutcome (β : Type) where
  | ok (body : β)
  | err (e : TransportError)

/-- A failure raised inside the `try` block of `fetchPlayerStats`: either a
transport failure from the HTTP client, or the `throw new Error(message)`
raised when the account body has a truthy `error` field. -/
inductive FetchError where
  | transport (e : TransportError)
  | application (msg : String)
deriving DecidableEq

/-- The `try` block of `fetchPlayerStats` (src/bot.js lines 405 to 443):
fetch the account body, raise `Error(message)` on a truthy `error` field,
fetch the stats body, combine, write the cache.  The second component
counts the upstream requests issued. -/
def fetchPlayerStatsTry (uid region : String) (now : Int)
    (accountResp : HttpOutcome AccountBody) (statsResp : HttpOutcome (Option StatsData))
    (cache : Cache) : Except FetchError (CachedValue × Cache) × Nat :=
  match accountResp with
  | HttpOutcome.err e => (Except.error (FetchError.transport e), 1)
  | HttpOutcome.ok accountBody =>
    if accountBody.error then
      (Except.error (FetchError.application accountBody.message), 1)
    else
      match statsResp with
      | HttpOutcome.err e => (Except.error (FetchError.transport e), 2)
      | HttpOutcome.ok statsBody =>
        let combinedData := combinePlayerData accountBody statsBody uid region
        (Except.ok (CachedValue.player combinedData,
            mapSet cache (statsCacheKey uid region)
              { data := CachedValue.player combinedData, timestamp := now }), 2)

/-- Embedding of `fetchPlayerStats(uid, region)` (src/bot.js lines 393 to
452): return a fresh cached value without issuing requests; otherwise run
the `try` block, and map any raised failure to the absent result `none`
with the cache unchanged (the `catch` block returns `null`).  Result:
(returned value or absence, cache afterwards, upstream requests issued). -/
def fetchPlayerStats (uid region : String) (now : Int)
    (accountResp : HttpOutcome AccountBody) (statsResp : HttpOutcome (Option StatsData))
    (cache : Cache) : Option CachedValue × Cache × Nat :=
  match cacheGetFresh now cache (statsCacheKey uid region) with
  | some v => (some v, cache, 0)
  | none =>
    match fetchPlayerStatsTry uid region now accountResp statsResp cache with
    | (Except.ok (v, c), n) => (some v, c, n)
    | (Except.error _, n) => (none, cache, n)

/-- Embedding of `fetchGuildInfo(guildId, region)` (src/bot.js lines 469 to
506): fresh cache hit, else one request; a truthy `error` field returns
`null` before any cache write; a transport failure is caught and returns
`null`; success caches and returns the raw body. -/
def fetchGuildInfo (guildId region : String) (now : Int)
    (resp : HttpOutcome GuildBody) (cache : Cache) : Option CachedValue × Cache × Nat :=
  match cacheGetFresh now cache (guildCacheKey guildId region) with
  | some v => (some v, cache, 0)
  | none =>
    match resp with
    | HttpOutcome.err _ => (none, cache, 1)
    | HttpOutcome.ok body =>
      if body.error then (none, cache, 1)
      else (some (CachedValue.guild body),
        mapSet cache (guildCacheKey guildId region)
          { data := CachedValue.guild body, timestamp := now }, 1)

/-- A lightweight candidate record returned by the nickname search. -/
structure SearchCandidate where
  nickname : String
  uid : String
  level : Int
  region : String
deriving DecidableEq

/-- Embedding of `searchPlayerByNickname(nickname)` (src/bot.js lines 455 to
466): the stub resolves to one fixed sample candidate echoing the queried
nickname; it never rejects (it is a total function into a list). -/
def searchPlayerByNickname (nickname : String) : List SearchCandidate :=
  [{ nickname := nickname, uid := "1633864660", level := 75, region := "IND" }]

/-! ## Concrete example payloads used by witnesses and counterexamples -/

/-- A well-populated `basicInfo`. -/
def exBasic : BasicInfo :=
  { nickname := some "Player1", accountId := some "1633864660", level := some 60,
    region := some "IND", liked := some 10, rank := some 220,
    rankingPoints := some 3000, maxRank := some 220, badgeCnt := some 5,
    lastLoginAt := some 1700000000 }

/-- A successful account body. -/
def exAccount : AccountBody :=
  { error := false, message := "", basicInfo := some exBasic, clanBasicInfo := none }

/-- A second successful account body with a different nickname. -/
def exAccountB : AccountBody :=
  { error := false, message := "",
    basicInfo := some { exBasic with nickname := some "Other" }, clanBasicInfo := none }

/-- An account body signalling an application-level error. -/
def errAccount : AccountBody :=
  { error := true, message := "uid not found", basicInfo := none, clanBasicInfo := none }

/-- Stats: 100 solo matches, 43 wins, 120 kills, 40 deaths; no quad block. -/
def exStatsMain : StatsData :=
  { soloStats := some
      { gamesPlayed := some 100, wins := some 43, kills := some 120,
        detailedStats := some { deaths := some 40, headshots := some 30, damage := some 9000 } },
    quadStats := none }

/-- Stats: 5 kills and no recorded deaths. -/
def exStatsNoDeaths : StatsData :=
  { soloStats := some
      { gamesPlayed := some 10, wins := some 2, kills := some 5, detailedStats := none },
    quadStats := none }

/-- The normalized record produced from `exAccount` and `exStatsMain`. -/
def exRecord : NormalizedRecord := combinePlayerData exAccount (some exStatsMain) "7" "IND"

/-- A cache holding `exRecord` under the stats key for uid 7, stored at time 0. -/
def stalePlayerCache : Cache :=
  [(statsCacheKey "7" "IND", { data := CachedValue.player exRecord, timestamp := 0 })]

/-- An account body whose `basicInfo.level` is negative (untrusted input). -/
def negAccount : AccountBody :=
  { error := false, message := "",
    basicInfo := some { emptyBasicInfo with level := some (-1) }, clanBasicInfo := none }

/-- An account body whose rank code is the falsy value 0. -/
def rank0Account : AccountBody :=
  { error := false, message := "",
    basicInfo := some { emptyBasicInfo with rank := some 0 }, clanBasicInfo := none }

/-- An account body whose rank and max-rank codes are the unmapped 999. -/
def rank999Account : AccountBody :=
  { error := false, message := "",
    basicInfo := some { emptyBasicInfo with rank := some 999, maxRank := some 999 },
    clanBasicInfo := none }

/-- A guild body with a falsy `error` field. -/
def exGuild : GuildBody :=
  { error := false, message := "", clanName := "TheClan", clanId := "3033195648",
    clanLevel := 4, memberNum := 30 }

/-- An account body with no `basicInfo` at all. -/
def plainAccount : AccountBody :=
  { error := false, message := "", basicInfo := none, clanBasicInfo := none }

/-- An entry stored at time 0, used to instantiate the cache claims. -/
def exEntry : CacheEntry := { data := CachedValue.guild exGuild, timestamp := 0 }

/-- A one-entry cache used to instantiate the cache claims. -/
def exCache : Cache := [("k", exEntry)]

/-- The cache produced by a successful miss-then-fetch for uid 7 at time 0. -/
def exCacheAfter : Cache :=
  mapSet [] (statsCacheKey "7" "IND") { data := CachedValue.player exRecord, timestamp := 0 }

/-! ## Non-negativity predicates on untrusted payloads (for the amended C6) -/

/-- The number field, when present, is non-negative. -/
def optIntNonneg (o : Option Int) : Bool :=
  match o with
  | some v => decide (0 ≤ v)
  | none => true

/-- All number fields of a `detailedStats` block are non-negative. -/
def detailedNonneg (d : Option DetailedStats) : Bool :=
  match d with
  | some ds => optIntNonneg ds.deaths && optIntNonneg ds.headshots && optIntNonneg ds.damage
  | none => true

/-- All number fields of a per-mode stats block are non-negative. -/
def modeStatsNonneg (m : ModeStats) : Bool :=
  optIntNonneg m.gamesPlayed && optIntNonneg m.wins && optIntNonneg m.kills &&
    detailedNonneg m.detailedStats

/-- All number fields of the stats payload are non-negative. -/
def statsNonneg (s : Option StatsData) : Bool :=
  modeStatsNonneg (soloOf s) && modeStatsNonneg (quadOf s)

/-- All number fields of the account payload used numerically are non-negative. -/
def accountNonneg (a : AccountBody) : Bool :=
  optIntNonneg (accBasicInfo a).level && optIntNonneg (accBasicInfo a).liked &&
    optIntNonneg (accBasicInfo a).rankingPoints && optIntNonneg (accBasicInfo a).badgeCnt

/-! ## Lemmas about the decimal rendering -/

theorem data_mk (l : List Char) : (String.mk l).data = l := rfl

theorem digitChar_isDigit (n : Nat) : (digitChar n).isDigit = true := by
  unfold digitChar
  split_ifs <;> decide

theorem isDigit_ne_dot {c : Char} (h : c.isDigit = true) : c ≠ '.' := by
  intro he
  rw [he] at h
  exact absurd h (by decide)

theorem fracDigits_length (d : Nat) : ∀ m, (fracDigits d m).length = d := by
  induction d with
  | zero => intro m; rfl
  | succ d ih => intro m; simp [fracDigits, ih]

theorem fracDigits_isDigit (d : Nat) : ∀ m c, c ∈ fracDigits d m → c.isDigit = true := by
  induction d with
  | zero => intro m c hc; simp [fracDigits] at hc
  | succ d ih =>
    intro m c hc
    simp only [fracDigits, List.mem_cons] at hc
    rcases hc with h | h
    · rw [h]; exact digitChar_isDigit _
    · exact ih _ _ h

theorem natDigitsAux_isDigit (fuel : Nat) : ∀ n c, c ∈ natDigitsAux fuel n → c.isDigit = true := by
  induction fuel with
  | zero => intro n c hc; simp [natDigitsAux] at hc
  | succ fuel ih =>
    intro n c hc
    unfold natDigitsAux at hc
    split at hc
    · simp at hc; rw [hc]; exact digitChar_isDigit _
    · rw [List.mem_append] at hc
      rcases hc with h | h
      · exact ih _ _ h
      · simp at h; rw [h]; exact digitChar_isDigit _

theorem natDigits_isDigit (n : Nat) : ∀ c ∈ natDigits n, c.isDigit = true :=
  fun c hc => natDigitsAux_isDigit _ _ _ hc

theorem count_dot_eq_zero {l : List Char} (h : ∀ c ∈ l, c ≠ '.') : l.count '.' = 0 := by
  rw [List.count_eq_zero]
  intro hm
  exact h _ hm rfl

theorem jsToFixedSign_no_dot (num den : Int) : ∀ c ∈ jsToFixedSign num den, c ≠ '.' := by
  intro c hc
  unfold jsToFixedSign at hc
  split at hc
  · simp at hc; rw [hc]; decide
  · simp at hc

theorem takeWhile_append_dot (l1 l2 : List Char) (h1 : ∀ c ∈ l1, c ≠ '.') :
    (l1 ++ '.' :: l2).takeWhile (fun c => c != '.') = l1 := by
  induction l1 with
  | nil => simp
  | cons a l ih =>
    have ha : (a != '.') = true := by
      have := h1 a (List.mem_cons_self a l)
      simpa using this
    simp only [List.cons_append, List.takeWhile_cons, ha, if_true]
    rw [ih (fun c hc => h1 c (List.mem_cons_of_mem _ hc))]

theorem jsToFixed_isFixedString (d : Nat) (num den : Int) (hd : d ≠ 0) :
    isFixedString (jsToFixed d num den) d := by
  unfold jsToFixed
  rw [if_neg hd]
  have hnd : ∀ c ∈ natDigits (jsToFixedScaled d num den / 10 ^ d), c ≠ '.' :=
    fun c hc => isDigit_ne_dot (natDigits_isDigit _ c hc)
  have hfd : ∀ c ∈ fracDigits d (jsToFixedScaled d num den % 10 ^ d), c ≠ '.' :=
    fun c hc => isDigit_ne_dot (fracDigits_isDigit d _ c hc)
  have hkey : fracPart (String.mk (jsToFixedSign num den ++
      natDigits (jsToFixedScaled d num den / 10 ^ d) ++
      '.' :: fracDigits d (jsToFixedScaled d num den % 10 ^ d))) =
      (fracDigits d (jsToFixedScaled d num den % 10 ^ d)).reverse := by
    unfold fracPart
    rw [data_mk]
    have hrev : (jsToFixedSign num den ++ natDigits (jsToFixedScaled d num den / 10 ^ d) ++
        '.' :: fracDigits d (jsToFixedScaled d num den % 10 ^ d)).reverse =
        (fracDigits d (jsToFixedScaled d num den % 10 ^ d)).reverse ++
        '.' :: ((natDigits (jsToFixedScaled d num den / 10 ^ d)).reverse ++
          (jsToFixedSign num den).reverse) := by
      simp [List.reverse_append]
    rw [hrev]
    exact takeWhile_append_dot _ _ (fun c hc => hfd c (List.mem_reverse.mp hc))
  unfold isFixedString
  refine ⟨?_, ?_, ?_⟩
  · rw [data_mk]
    have h1 : (jsToFixedSign num den).count '.' = 0 :=
      count_dot_eq_zero (jsToFixedSign_no_dot num den)
    have h2 : (natDigits (jsToFixedScaled d num den / 10 ^ d)).count '.' = 0 :=
      count_dot_eq_zero hnd
    have h3 : (fracDigits d (jsToFixedScaled d num den % 10 ^ d)).count '.' = 0 :=
      count_dot_eq_zero hfd
    simp [List.count_append, List.count_cons, h1, h2, h3]
  · rw [hkey, List.length_reverse]
    exact fracDigits_length d _
  · rw [hkey]
    intro c hc
    exact fracDigits_isDigit d _ c (List.mem_reverse.mp hc)

/-! ## Lemmas about the cache store -/

theorem mapGet_mapSet_self (m : Cache) (k : String) (v : CacheEntry) :
    mapGet (mapSet m k v) k = some v := by
  induction m with
  | nil => simp [mapSet, mapGet]
  | cons kv rest ih =>
    obtain ⟨k2, v2⟩ := kv
    by_cases h : k2 = k
    · simp [mapSet, h, mapGet]
    · simp [mapSet, h, mapGet, ih]

theorem mapGet_mem {m : Cache} {k : String} {e : CacheEntry} (h : mapGet m k = some e) :
    (k, e) ∈ m := by
  induction m with
  | nil => simp [mapGet] at h
  | cons kv rest ih =>
    obtain ⟨k2, v2⟩ := kv
    by_cases hk : k2 = k
    · subst hk
      simp [mapGet] at h
      rw [h]
      exact List.mem_cons_self _ _
    · simp [mapGet, hk] at h
      exact List.mem_cons_of_mem _ (ih h)

theorem mem_sweep_iff (now : Int) (cache : Cache) (kv : String × CacheEntry) :
    kv ∈ sweep now cache ↔ kv ∈ cache ∧ ¬(now - kv.2.timestamp > CACHE_DURATION * 2) := by
  unfold sweep
  rw [List.mem_filter]
  simp

/-! ## Claim theorems -/

/-- C9 (confirmed): for every nickname, `searchPlayerByNickname` resolves to a
list of exactly one candidate whose nickname equals the input and whose uid,
level and region are the constants 1633864660, 75 and IND; it never resolves
to an empty list and, being a total function, never rejects. -/
theorem claim_C9_search_stub (nickname : String) :
    searchPlayerByNickname nickname =
      [{ nickname := nickname, uid := "1633864660", level := 75, region := "IND" }] ∧
    (searchPlayerByNickname nickname).length = 1 :=
  ⟨rfl, rfl⟩

/-- C2 (confirmed): the sweep keeps exactly the entries whose age does not
exceed `2 * CACHE_DURATION` and removes the rest; an entry aged exactly
`CACHE_DURATION + 1000` milliseconds (TTL plus one second) is a miss on the
freshness check yet is not removed by the sweep. -/
theorem claim_C2_sweep_exact (now : Int) (cache : Cache) (key : String) (entry : CacheEntry) :
    ((key, entry) ∈ sweep now cache ↔
      (key, entry) ∈ cache ∧ ¬(now - entry.timestamp > CACHE_DURATION * 2)) ∧
    (mapGet cache key = some entry → now - entry.timestamp = CACHE_DURATION + 1000 →
      cacheGetFresh now cache key = none ∧ (key, entry) ∈ sweep now cache) := by
  constructor
  · exact mem_sweep_iff now cache (key, entry)
  · intro hget hage
    constructor
    · simp only [cacheGetFresh, hget]
      rw [hage]
      norm_num [CACHE_DURATION]
    · rw [mem_sweep_iff]
      refine ⟨mapGet_mem hget, ?_⟩
      rw [hage]
      norm_num [CACHE_DURATION]

/-- Witness for C2: at time 301000 (TTL + 1s after storing), the freshness
check misses but the sweep keeps the entry. -/
theorem claim_C2_sweep_exact_witness :
    cacheGetFresh 301000 exCache "k" = none ∧ ("k", exEntry) ∈ sweep 301000 exCache :=
  (claim_C2_sweep_exact 301000 exCache "k" exEntry).2 rfl (by decide)

/-- C10 (confirmed): whenever `fetchPlayerStats` or `fetchGuildInfo` returns
the absent result, the cache afterwards is exactly the cache before — no
entry is added, overwritten or removed on any failure path, so a write
happens only together with a successful return. -/
theorem claim_C10_no_write_on_failure (uid guildId region : String) (now : Int)
    (accountResp : HttpOutcome AccountBody) (statsResp : HttpOutcome (Option StatsData))
    (guildResp : HttpOutcome GuildBody) (cache : Cache) :
    ((fetchPlayerStats uid region now accountResp statsResp cache).1 = none →
      (fetchPlayerStats uid region now accountResp statsResp cache).2.1 = cache) ∧
    ((fetchGuildInfo guildId region now guildResp cache).1 = none →
      (fetchGuildInfo guildId region now guildResp cache).2.1 = cache) := by
  constructor
  · cases hm : cacheGetFresh now cache (statsCacheKey uid region) with
    | some v => simp [fetchPlayerStats, hm]
    | none =>
      rcases htry : fetchPlayerStatsTry uid region now accountResp statsResp cache with ⟨res, n⟩
      cases res with
      | ok p =>
        rcases p with ⟨v, c⟩
        simp [fetchPlayerStats, hm, htry]
      | error e => simp [fetchPlayerStats, hm, htry]
  · cases hm : cacheGetFresh now cache (guildCacheKey guildId region) with
    | some v => simp [fetchGuildInfo, hm]
    | none =>
      cases guildResp with
      | err e => simp [fetchGuildInfo, hm]
      | ok body => cases hb : body.error <;> simp [fetchGuildInfo, hm, hb]

/-- Witness for C10: a timed-out player fetch and a timed-out guild fetch
against the empty cache leave it empty. -/
theorem claim_C10_no_write_on_failure_witness :
    (fetchPlayerStats "1" "IND" 0 (HttpOutcome.err TransportError.timeout)
      (HttpOutcome.ok none) []).2.1 = [] ∧
    (fetchGuildInfo "2" "IND" 0 (HttpOutcome.err TransportError.timeout) []).2.1 = [] :=
  ⟨(claim_C10_no_write_on_failure "1" "2" "IND" 0 (HttpOutcome.err TransportError.timeout)
      (HttpOutcome.ok none) (HttpOutcome.err TransportError.timeout) []).1 rfl,
    (claim_C10_no_write_on_failure "1" "2" "IND" 0 (HttpOutcome.err TransportError.timeout)
      (HttpOutcome.ok none) (HttpOutcome.err TransportError.timeout) []).2 rfl⟩

/-- C7 (confirmed): with no fresh cache entry, a transport-level failure
(timeout, connection error, non-2xx, malformed body — any `TransportError`)
of the account request, of the stats request, or of the guild request makes
`fetchPlayerStats` / `fetchGuildInfo` return the absent result with the
cache unchanged, rather than propagating a thrown error. -/
theorem claim_C7_transport_absence (uid region : String) (now : Int) (cache : Cache)
    (e : TransportError) :
    (cacheGetFresh now cache (statsCacheKey uid region) = none →
      ∀ statsResp, fetchPlayerStats uid region now (HttpOutcome.err e) statsResp cache =
        (none, cache, 1)) ∧
    (cacheGetFresh now cache (statsCacheKey uid region) = none →
      ∀ body : AccountBody, body.error = false →
        fetchPlayerStats uid region now (HttpOutcome.ok body) (HttpOutcome.err e) cache =
          (none, cache, 2)) ∧
    (cacheGetFresh now cache (guildCacheKey uid region) = none →
      fetchGuildInfo uid region now (HttpOutcome.err e) cache = (none, cache, 1)) := by
  refine ⟨?_, ?_, ?_⟩
  · intro hm statsResp
    simp [fetchPlayerStats, fetchPlayerStatsTry, hm]
  · intro hm body hb
    simp [fetchPlayerStats, fetchPlayerStatsTry, hm, hb]
  · intro hm
    simp [fetchGuildInfo, hm]

/-- Witness for C7: each of the three failure shapes at a concrete input. -/
theorem claim_C7_transport_absence_witness :
    fetchPlayerStats "1" "IND" 0 (HttpOutcome.err TransportError.timeout)
      (HttpOutcome.ok none) [] = (none, [], 1) ∧
    fetchPlayerStats "1" "IND" 0 (HttpOutcome.ok exAccount)
      (HttpOutcome.err TransportError.non2xx) [] = (none, [], 2) ∧
    fetchGuildInfo "1" "IND" 0 (HttpOutcome.err TransportError.connectionError) [] =
      (none, [], 1) :=
  ⟨(claim_C7_transport_absence "1" "IND" 0 [] TransportError.timeout).1 rfl (HttpOutcome.ok none),
    (claim_C7_transport_absence "1" "IND" 0 [] TransportError.non2xx).2.1 rfl exAccount rfl,
    (claim_C7_transport_absence "1" "IND" 0 [] TransportError.connectionError).2.2 rfl⟩

/-- C1 (corrected): at a concrete input with no cache entry and an upstream
body with a truthy `error` field and message "uid not found",
`fetchPlayerStats` returns the absent result — it does not propagate the
rejection, contrary to the claim. -/
theorem claim_C1_counterexample :
    errAccount.error = true ∧ errAccount.message = "uid not found" ∧
    fetchPlayerStats "1633864660" "IND" 0 (HttpOutcome.ok errAccount)
      (HttpOutcome.ok none) [] = (none, [], 1) :=
  ⟨rfl, rfl, rfl⟩

/-- C1 (amended): with no fresh cache entry, a truthy upstream `error` field
makes the try block raise a failure carrying the upstream `message`, but the
catch block swallows it: `fetchPlayerStats` returns the absent result with
the cache unchanged after the single account request. -/
theorem claim_C1_error_swallowed (uid region : String) (now : Int) (cache : Cache)
    (statsResp : HttpOutcome (Option StatsData)) (body : AccountBody)
    (hmiss : cacheGetFresh now cache (statsCacheKey uid region) = none)
    (herr : body.error = true) :
    fetchPlayerStats uid region now (HttpOutcome.ok body) statsResp cache = (none, cache, 1) ∧
    (fetchPlayerStatsTry uid region now (HttpOutcome.ok body) statsResp cache).1 =
      Except.error (FetchError.application body.message) := by
  constructor
  · simp [fetchPlayerStats, fetchPlayerStatsTry, hmiss, herr]
  · simp [fetchPlayerStatsTry, herr]

/-- Witness for the amended C1 at a concrete erroring input. -/
theorem claim_C1_error_swallowed_witness :
    fetchPlayerStats "5" "BR" 0 (HttpOutcome.ok errAccount) (HttpOutcome.ok none) [] =
      (none, [], 1) ∧
    (fetchPlayerStatsTry "5" "BR" 0 (HttpOutcome.ok errAccount) (HttpOutcome.ok none) []).1 =
      Except.error (FetchError.application errAccount.message) :=
  claim_C1_error_swallowed "5" "BR" 0 [] (HttpOutcome.ok none) errAccount rfl rfl

/-! ## Lemmas for non-negativity -/

theorem jsOrInt_nonneg {o : Option Int} (h : optIntNonneg o = true) : 0 ≤ jsOrInt o 0 := by
  cases o with
  | none => simp [jsOrInt]
  | some v =>
    simp [optIntNonneg] at h
    by_cases hv : v = 0
    · simp [jsOrInt, hv]
    · simp [jsOrInt, hv]
      exact h

theorem modeStats_games_nonneg {m : ModeStats} (h : modeStatsNonneg m = true) :
    0 ≤ jsOrInt m.gamesPlayed 0 := by
  unfold modeStatsNonneg at h
  rw [Bool.and_eq_true, Bool.and_eq_true, Bool.and_eq_true] at h
  exact jsOrInt_nonneg h.1.1.1

theorem modeStats_wins_nonneg {m : ModeStats} (h : modeStatsNonneg m = true) :
    0 ≤ jsOrInt m.wins 0 := by
  unfold modeStatsNonneg at h
  rw [Bool.and_eq_true, Bool.and_eq_true, Bool.and_eq_true] at h
  exact jsOrInt_nonneg h.1.1.2

theorem modeStats_kills_nonneg {m : ModeStats} (h : modeStatsNonneg m = true) :
    0 ≤ jsOrInt m.kills 0 := by
  unfold modeStatsNonneg at h
  rw [Bool.and_eq_true, Bool.and_eq_true, Bool.and_eq_true] at h
  exact jsOrInt_nonneg h.1.2

theorem modeStats_headshots_nonneg {m : ModeStats} (h : modeStatsNonneg m = true) :
    0 ≤ headshotsOf m := by
  unfold modeStatsNonneg at h
  rw [Bool.and_eq_true, Bool.and_eq_true, Bool.and_eq_true] at h
  have hdet := h.2
  unfold headshotsOf
  cases hd : m.detailedStats with
  | none => simp
  | some ds =>
    rw [hd] at hdet
    unfold detailedNonneg at hdet
    rw [Bool.and_eq_true, Bool.and_eq_true] at hdet
    exact jsOrInt_nonneg hdet.1.2

theorem modeStats_damage_nonneg {m : ModeStats} (h : modeStatsNonneg m = true) :
    0 ≤ damageOf m := by
  unfold modeStatsNonneg at h
  rw [Bool.and_eq_true, Bool.and_eq_true, Bool.and_eq_true] at h
  have hdet := h.2
  unfold damageOf
  cases hd : m.detailedStats with
  | none => simp
  | some ds =>
    rw [hd] at hdet
    unfold detailedNonneg at hdet
    rw [Bool.and_eq_true, Bool.and_eq_true] at hdet
    exact jsOrInt_nonneg hdet.2

theorem statsNonneg_solo {s : Option StatsData} (h : statsNonneg s = true) :
    modeStatsNonneg (soloOf s) = true := by
  unfold statsNonneg at h
  rw [Bool.and_eq_true] at h
  exact h.1

theorem statsNonneg_quad {s : Option StatsData} (h : statsNonneg s = true) :
    modeStatsNonneg (quadOf s) = true := by
  unfold statsNonneg at h
  rw [Bool.and_eq_true] at h
  exact h.2

/-! ## Inversion of a successful miss-then-fetch call -/

theorem fetchPlayerStats_write_inversion {uid region : String} {now : Int}
    {accountResp : HttpOutcome AccountBody} {statsResp : HttpOutcome (Option StatsData)}
    {cache : Cache} {v : CachedValue} {c1 : Cache} {n : Nat}
    (h : fetchPlayerStats uid region now accountResp statsResp cache = (some v, c1, n))
    (hn : n ≠ 0) :
    c1 = mapSet cache (statsCacheKey uid region) { data := v, timestamp := now } := by
  unfold fetchPlayerStats at h
  cases hm : cacheGetFresh now cache (statsCacheKey uid region) with
  | some w =>
    rw [hm] at h
    simp at h
    exact absurd h.2.2.symm hn
  | none =>
    rw [hm] at h
    unfold fetchPlayerStatsTry at h
    cases accountResp with
    | err e => simp at h
    | ok body =>
      cases statsResp with
      | err e2 =>
        cases hb : body.error with
        | true => simp [hb] at h
        | false => simp [hb] at h
      | ok sb =>
        cases hb : body.error with
        | true => simp [hb] at h
        | false =>
          simp [hb] at h
          obtain ⟨hv, hc, hn2⟩ := h
          rw [← hc, ← hv]

/-- C3 (amended): after a successful `fetchPlayerStats` call that reached
upstream (a cache miss performing both requests), a second call within
`CACHE_DURATION` of the first returns exactly the first call's value with
the cache unchanged and zero upstream requests, whatever the upstream would
answer now. -/
theorem claim_C3_cached_replay (uid region : String) (now now2 : Int)
    (accountResp : HttpOutcome AccountBody) (statsResp : HttpOutcome (Option StatsData))
    (accountResp2 : HttpOutcome AccountBody) (statsResp2 : HttpOutcome (Option StatsData))
    (cache : Cache) (v : CachedValue) (c1 : Cache)
    (hfirst : fetchPlayerStats uid region now accountResp statsResp cache = (some v, c1, 2))
    (h0 : 0 ≤ now2 - now) (httl : now2 - now < CACHE_DURATION) :
    fetchPlayerStats uid region now2 accountResp2 statsResp2 c1 = (some v, c1, 0) := by
  have hc1 := fetchPlayerStats_write_inversion hfirst (by decide)
  have hget : cacheGetFresh now2 c1 (statsCacheKey uid region) = some v := by
    rw [hc1]
    simp [cacheGetFresh, mapGet_mapSet_self, httl]
  simp [fetchPlayerStats, hget]

/-- Witness for the amended C3: a concrete first call at time 0 populates
the cache; a replay at time 1000 returns the same value with zero requests
even though the upstream would now time out. -/
theorem claim_C3_cached_replay_witness :
    fetchPlayerStats "7" "IND" 1000 (HttpOutcome.err TransportError.timeout)
      (HttpOutcome.ok none) exCacheAfter =
      (some (CachedValue.player exRecord), exCacheAfter, 0) :=
  claim_C3_cached_replay "7" "IND" 0 1000 (HttpOutcome.ok exAccount)
    (HttpOutcome.ok (some exStatsMain)) (HttpOutcome.err TransportError.timeout)
    (HttpOutcome.ok none) [] (CachedValue.player exRecord) exCacheAfter rfl
    (by decide) (by decide)

/-- C3 (counterexample): the first call can itself be a fresh cache hit on an
entry stored at time 0; at time 240000 it succeeds with zero requests, yet a
second call 240000 ms later (within TTL of the first call) finds the entry
stale, issues two upstream requests, and can return a different value. -/
theorem claim_C3_counterexample :
    (fetchPlayerStats "7" "IND" 240000 (HttpOutcome.ok exAccount)
      (HttpOutcome.ok (some exStatsMain)) stalePlayerCache).1 =
      some (CachedValue.player exRecord) ∧
    (fetchPlayerStats "7" "IND" 240000 (HttpOutcome.ok exAccount)
      (HttpOutcome.ok (some exStatsMain)) stalePlayerCache).2.1 = stalePlayerCache ∧
    ((480000 : Int) - 240000 < CACHE_DURATION) ∧
    (fetchPlayerStats "7" "IND" 480000 (HttpOutcome.ok exAccountB)
      (HttpOutcome.ok (some exStatsMain)) stalePlayerCache).2.2 = 2 ∧
    (fetchPlayerStats "7" "IND" 480000 (HttpOutcome.ok exAccountB)
      (HttpOutcome.ok (some exStatsMain)) stalePlayerCache).1 ≠
      some (CachedValue.player exRecord) := by
  refine ⟨rfl, rfl, by decide, rfl, by decide⟩

/-- C4 (confirmed): `winRate` is a fixed-point string with exactly one digit
after the dot when `totalMatches > 0` and the literal "0.0" when
`totalMatches = 0`; `kdRatio` has exactly two digits after the dot when
`totalDeaths > 0` and is the plain integer string of `totalKills` when
`totalDeaths = 0`; with the claimed examples 43 wins of 100 matches giving
"43.0", 120 kills over 40 deaths giving "3.00", and 5 kills with no deaths
giving "5". -/
theorem claim_C4_ratio_formats (a : AccountBody) (s : Option StatsData) (uid region : String) :
    (totalMatchesOf s > 0 → isFixedString (combinePlayerData a s uid region).winRate 1) ∧
    (totalMatchesOf s = 0 → (combinePlayerData a s uid region).winRate = "0.0") ∧
    (totalDeathsOf s > 0 → isFixedString (combinePlayerData a s uid region).kdRatio 2) ∧
    (totalDeathsOf s = 0 →
      (combinePlayerData a s uid region).kdRatio = intToStr (totalKillsOf s)) ∧
    (combinePlayerData exAccount (some exStatsMain) "7" "IND").winRate = "43.0" ∧
    (combinePlayerData exAccount (some exStatsMain) "7" "IND").kdRatio = "3.00" ∧
    (combinePlayerData exAccount (some exStatsNoDeaths) "7" "IND").kdRatio = "5" := by
  refine ⟨?_, ?_, ?_, ?_, by decide, by decide, by decide⟩
  · intro h
    have hw : (combinePlayerData a s uid region).winRate =
        jsToFixed 1 (totalWinsOf s * 100) (totalMatchesOf s) := by
      simp [combinePlayerData, h]
    rw [hw]
    exact jsToFixed_isFixedString 1 _ _ (by decide)
  · intro h
    simp [combinePlayerData, h]
  · intro h
    have hk : (combinePlayerData a s uid region).kdRatio =
        jsToFixed 2 (totalKillsOf s) (totalDeathsOf s) := by
      simp [combinePlayerData, h]
    rw [hk]
    exact jsToFixed_isFixedString 2 _ _ (by decide)
  · intro h
    simp [combinePlayerData, h]

/-- Witness for C4 at concrete payloads, one per hypothesis shape. -/
theorem claim_C4_ratio_formats_witness :
    isFixedString (combinePlayerData exAccount (some exStatsMain) "7" "IND").winRate 1 ∧
    (combinePlayerData exAccount none "7" "IND").winRate = "0.0" ∧
    isFixedString (combinePlayerData exAccount (some exStatsMain) "7" "IND").kdRatio 2 ∧
    (combinePlayerData exAccount (some exStatsNoDeaths) "7" "IND").kdRatio =
      intToStr (totalKillsOf (some exStatsNoDeaths)) :=
  ⟨(claim_C4_ratio_formats exAccount (some exStatsMain) "7" "IND").1 (by decide),
    (claim_C4_ratio_formats exAccount none "7" "IND").2.1 (by decide),
    (claim_C4_ratio_formats exAccount (some exStatsMain) "7" "IND").2.2.1 (by decide),
    (claim_C4_ratio_formats exAccount (some exStatsNoDeaths) "7" "IND").2.2.2.1 (by decide)⟩

/-- C5 (counterexample): a present rank code 0 is falsy in the template
interpolation, so the rank label is "Rank Unknown" — not "Rank 0" as the
claim requires for a present unmapped code. -/
theorem claim_C5_counterexample :
    (accBasicInfo rank0Account).rank = some 0 ∧
    (combinePlayerData rank0Account none "1" "IND").rank = "Rank Unknown" ∧
    (combinePlayerData rank0Account none "1" "IND").rank ≠ "Rank 0" := by
  refine ⟨rfl, by decide, by decide⟩

/-- C5 (amended): the rank label is the named tier for the ten mapped codes,
"Rank <code>" for every other present non-zero code, and "Rank Unknown" when
the code is absent or the falsy value 0. -/
theorem claim_C5_rank_label (a : AccountBody) (s : Option StatsData) (uid region : String) :
    ((accBasicInfo a).rank = none → (combinePlayerData a s uid region).rank = "Rank Unknown") ∧
    ((accBasicInfo a).rank = some 0 →
      (combinePlayerData a s uid region).rank = "Rank Unknown") ∧
    (∀ c nm, (accBasicInfo a).rank = some c → rankNames c = some nm →
      (combinePlayerData a s uid region).rank = nm) ∧
    (∀ c, (accBasicInfo a).rank = some c → rankNames c = none → c ≠ 0 →
      (combinePlayerData a s uid region).rank = "Rank " ++ intToStr c) := by
  have hfield : (combinePlayerData a s uid region).rank =
      (jsRankLookup (accBasicInfo a).rank).getD
        ("Rank " ++ rankFallbackText (accBasicInfo a).rank) := rfl
  refine ⟨?_, ?_, ?_, ?_⟩
  · intro h
    rw [hfield, h]
    decide
  · intro h
    rw [hfield, h]
    decide
  · intro c nm hc hn
    rw [hfield, hc]
    simp [jsRankLookup, hn]
  · intro c hc hn hc0
    rw [hfield, hc]
    simp [jsRankLookup, rankFallbackText, hn, hc0]

/-- Witness for the amended C5: code 220 is "Grandmaster", unmapped non-zero
code 999 is "Rank 999", absent code is "Rank Unknown". -/
theorem claim_C5_rank_label_witness :
    (combinePlayerData exAccount none "1" "IND").rank = "Grandmaster" ∧
    (combinePlayerData rank999Account none "1" "IND").rank = "Rank 999" ∧
    (combinePlayerData plainAccount none "1" "IND").rank = "Rank Unknown" := by
  refine ⟨(claim_C5_rank_label exAccount none "1" "IND").2.2.1 220 "Grandmaster" rfl rfl, ?_, ?_⟩
  · have h := (claim_C5_rank_label rank999Account none "1" "IND").2.2.2 999 rfl (by decide)
      (by decide)
    rw [h]
    decide
  · exact (claim_C5_rank_label plainAccount none "1" "IND").1 rfl

/-- C6 (counterexample): a negative upstream `level` flows through unclamped,
so a numeric field of the normalized record can be negative. -/
theorem claim_C6_counterexample :
    (combinePlayerData negAccount none "1" "IND").level = -1 ∧
    ¬(0 ≤ (combinePlayerData negAccount none "1" "IND").level) := by
  refine ⟨by decide, by decide⟩

/-- C6 (amended): when every present numeric field of the untrusted payloads
is non-negative, every numeric field of the normalized record (level, likes,
rankingPoints, totalMatches, totalWins, totalKills, headshots, damage,
badgeCount) is non-negative; the code performs no clamping, so this input
restriction is necessary. -/
theorem claim_C6_nonneg (a : AccountBody) (s : Option StatsData) (uid region : String)
    (ha : accountNonneg a = true) (hs : statsNonneg s = true) :
    0 ≤ (combinePlayerData a s uid region).level ∧
    0 ≤ (combinePlayerData a s uid region).likes ∧
    0 ≤ (combinePlayerData a s uid region).rankingPoints ∧
    0 ≤ (combinePlayerData a s uid region).totalMatches ∧
    0 ≤ (combinePlayerData a s uid region).totalWins ∧
    0 ≤ (combinePlayerData a s uid region).totalKills ∧
    0 ≤ (combinePlayerData a s uid region).headshots ∧
    0 ≤ (combinePlayerData a s uid region).damage ∧
    0 ≤ (combinePlayerData a s uid region).badgeCount := by
  unfold accountNonneg at ha
  rw [Bool.and_eq_true, Bool.and_eq_true, Bool.and_eq_true] at ha
  have hsolo := statsNonneg_solo hs
  have hquad := statsNonneg_quad hs
  refine ⟨jsOrInt_nonneg ha.1.1.1, jsOrInt_nonneg ha.1.1.2, jsOrInt_nonneg ha.1.2,
    ?_, ?_, ?_, ?_, ?_, jsOrInt_nonneg ha.2⟩
  · exact add_nonneg (modeStats_games_nonneg hsolo) (modeStats_games_nonneg hquad)
  · exact add_nonneg (modeStats_wins_nonneg hsolo) (modeStats_wins_nonneg hquad)
  · exact add_nonneg (modeStats_kills_nonneg hsolo) (modeStats_kills_nonneg hquad)
  · exact add_nonneg (modeStats_headshots_nonneg hsolo) (modeStats_headshots_nonneg hquad)
  · exact add_nonneg (modeStats_damage_nonneg hsolo) (modeStats_damage_nonneg hquad)

/-- Witness for the amended C6 at a fully non-negative payload pair. -/
theorem claim_C6_nonneg_witness :
    0 ≤ (combinePlayerData exAccount (some exStatsMain) "7" "IND").level ∧
    0 ≤ (combinePlayerData exAccount (some exStatsMain) "7" "IND").likes ∧
    0 ≤ (combinePlayerData exAccount (some exStatsMain) "7" "IND").rankingPoints ∧
    0 ≤ (combinePlayerData exAccount (some exStatsMain) "7" "IND").totalMatches ∧
    0 ≤ (combinePlayerData exAccount (some exStatsMain) "7" "IND").totalWins ∧
    0 ≤ (combinePlayerData exAccount (some exStatsMain) "7" "IND").totalKills ∧
    0 ≤ (combinePlayerData exAccount (some exStatsMain) "7" "IND").headshots ∧
    0 ≤ (combinePlayerData exAccount (some exStatsMain) "7" "IND").damage ∧
    0 ≤ (combinePlayerData exAccount (some exStatsMain) "7" "IND").badgeCount :=
  claim_C6_nonneg exAccount (some exStatsMain) "7" "IND" (by decide) (by decide)

/-- C8 (confirmed): the `maxRank` label is the named tier for the ten mapped
codes and exactly "Unknown" otherwise — both when the code is absent and
when it is present but unmapped (never "Rank <code>", unlike `rank`). -/
theorem claim_C8_maxRank_label (a : AccountBody) (s : Option StatsData) (uid region : String) :
    ((accBasicInfo a).maxRank = none →
      (combinePlayerData a s uid region).maxRank = "Unknown") ∧
    (∀ c nm, (accBasicInfo a).maxRank = some c → rankNames c = some nm →
      (combinePlayerData a s uid region).maxRank = nm) ∧
    (∀ c, (accBasicInfo a).maxRank = some c → rankNames c = none →
      (combinePlayerData a s uid region).maxRank = "Unknown") := by
  have hfield : (combinePlayerData a s uid region).maxRank =
      (jsRankLookup (accBasicInfo a).maxRank).getD "Unknown" := rfl
  refine ⟨?_, ?_, ?_⟩
  · intro h
    rw [hfield, h]
    rfl
  · intro c nm hc hn
    rw [hfield, hc]
    simp [jsRankLookup, hn]
  · intro c hc hn
    rw [hfield, hc]
    simp [jsRankLookup, hn]

/-- Witness for C8: unmapped present code 999 gives "Unknown"; mapped code
220 gives "Grandmaster". -/
theorem claim_C8_maxRank_label_witness :
    (combinePlayerData rank999Account none "1" "IND").maxRank = "Unknown" ∧
    (combinePlayerData exAccount none "1" "IND").maxRank = "Grandmaster" :=
  ⟨(claim_C8_maxRank_label rank999Account none "1" "IND").2.2 999 rfl (by decide),
    (claim_C8_maxRank_label exAccount none "1" "IND").2.1 220 "Grandmaster" rfl rfl⟩
